import Mathlib

set_option maxRecDepth 1000000

/- Verification development for the bounded-cycle subscription core of the
   slack-payment-bot repository: the Subscription Link Builder
   (payment/stripe_generator.go) and the Cycle-Limit Enforcer (the Stripe
   webhook handler), together with the request-validation helpers they rely
   on.  Go machine integers (int64) are modelled as Lean `Int` with explicit
   two's-complement wraparound where the source performs int64 arithmetic. -/

/-- Signed 64-bit wraparound, the behaviour of Go int64 arithmetic on overflow. -/
def wrap64 (n : Int) : Int := (n + 2 ^ 63) % 2 ^ 64 - 2 ^ 63

/-- Predicate stating that an integer is representable as a Go int64. -/
def in64 (n : Int) : Prop := -(2 ^ 63) ≤ n ∧ n < 2 ^ 63

instance (n : Int) : Decidable (in64 n) :=
  inferInstanceAs (Decidable (-(2 ^ 63) ≤ n ∧ n < 2 ^ 63))

theorem wrap64_eq_of_in64 {n : Int} (h : in64 n) : wrap64 n = n := by
  obtain ⟨h1, h2⟩ := h
  unfold wrap64
  have hlt : n + 2 ^ 63 < 2 ^ 64 := by omega
  have hge : (0 : Int) ≤ n + 2 ^ 63 := by omega
  rw [Int.emod_eq_of_lt hge hlt]
  omega

theorem in64_wrap64 (n : Int) : in64 (wrap64 n) := by
  unfold in64 wrap64
  have h1 : (0 : Int) ≤ (n + 2 ^ 63) % 2 ^ 64 := Int.emod_nonneg _ (by norm_num)
  have h2 : (n + 2 ^ 63) % 2 ^ 64 < 2 ^ 64 := Int.emod_lt_of_pos _ (by norm_num)
  omega

/-- Nanosecond duration computed inside calculateEndTimestamp
    (payment/stripe_generator.go).  The Go expression is
    `time.Duration(intervalCount*endDateCycles) * k * ... * time.Hour`, a chain
    of int64 multiplications evaluated left to right, each wrapping on
    overflow; `time.Hour` is 3600000000000 nanoseconds.  The switch arms are
    day (24h), week (7*24h), month (30*24h), year (365*24h), with the default
    arm equal to the month arm. -/
def goDurationNs (interval : String) (intervalCount endDateCycles : Int) : Int :=
  let cycles := wrap64 (intervalCount * endDateCycles)
  if interval = "day" then wrap64 (wrap64 (cycles * 24) * 3600000000000)
  else if interval = "week" then wrap64 (wrap64 (wrap64 (cycles * 7) * 24) * 3600000000000)
  else if interval = "month" then wrap64 (wrap64 (wrap64 (cycles * 30) * 24) * 3600000000000)
  else if interval = "year" then wrap64 (wrap64 (wrap64 (cycles * 365) * 24) * 3600000000000)
  else wrap64 (wrap64 (wrap64 (cycles * 30) * 24) * 3600000000000)

/-- Shallow embedding of calculateEndTimestamp (payment/stripe_generator.go).
    `nowSec` is the Unix-seconds value and `nowNsec` the nanosecond part
    (0 ≤ nowNsec < 10^9) of `time.Now()` at creation time.  Go's
    `now.Add(duration).Unix()` equals the floor of the total nanosecond
    instant in seconds, with the int64 wraparound of the internal second
    counters collapsed into a single final `wrap64`. -/
def calculateEndTimestamp (interval : String) (intervalCount endDateCycles : Int)
    (nowSec nowNsec : Int) : Int :=
  if endDateCycles ≤ 0 then 0
  else wrap64 (nowSec + Int.fdiv (nowNsec + goDurationNs interval intervalCount endDateCycles) (10 ^ 9))

/-- Interval duration in seconds exactly as the specification tabulates it:
    day 86400, week 604800, month 2592000, year 31536000, any other value
    falling back to the month duration. -/
def durationOf (interval : String) : Int :=
  if interval = "day" then 86400
  else if interval = "week" then 604800
  else if interval = "month" then 2592000
  else if interval = "year" then 31536000
  else 2592000

/-- Little-endian base-10 digit list of a natural number, with explicit fuel;
    any fuel ≥ n computes the digits of n. -/
def digitsRev (fuel : Nat) (n : Nat) : List Nat :=
  match fuel with
  | 0 => []
  | fuel + 1 => if n = 0 then [] else n % 10 :: digitsRev fuel (n / 10)

/-- Character representing one decimal digit. -/
def digitChar10 (d : Nat) : Char := Char.ofNat (48 + d)

/-- Decimal character sequence of a natural number, most significant digit
    first, as Go fmt.Sprintf prints an unsigned value with the %d verb. -/
def natDecChars (n : Nat) : List Char :=
  if n = 0 then ['0'] else ((digitsRev n n).reverse).map digitChar10

/-- Decimal rendering of a Go int64 value, as fmt.Sprintf with the %d verb. -/
def sprintfD (n : Int) : String :=
  if n < 0 then String.mk ('-' :: natDecChars n.natAbs) else String.mk (natDecChars n.natAbs)

/-- Test for an ASCII decimal digit character. -/
def isDigitChar (c : Char) : Bool := 48 ≤ c.toNat && c.toNat ≤ 57

/-- Numeric value of a most-significant-first decimal digit character run. -/
def decValue (cs : List Char) : Nat :=
  Nat.ofDigits 10 ((cs.map (fun c => c.toNat - 48)).reverse)

/-- Parse of a non-empty run of decimal digit characters. -/
def parseDecDigits (cs : List Char) : Option Nat :=
  if cs ≠ [] ∧ cs.all isDigitChar then some (decValue cs) else none

/-- Shallow embedding of Go strconv.ParseInt(s, 10, 64) on a character list:
    an optional single sign, then a non-empty digit run, with the value
    required to fit in int64 (a range overflow is an error in Go, and every
    ParseInt error is handled identically by the webhook code). -/
def parseInt64Chars : List Char → Option Int
  | [] => none
  | c :: rest =>
    if c = '-' then
      (parseDecDigits rest).bind (fun m => if (m : Int) ≤ 2 ^ 63 then some (-(m : Int)) else none)
    else if c = '+' then
      (parseDecDigits rest).bind (fun m => if (m : Int) < 2 ^ 63 then some (m : Int) else none)
    else
      (parseDecDigits (c :: rest)).bind (fun m => if (m : Int) < 2 ^ 63 then some (m : Int) else none)

/-- Shallow embedding of Go strconv.ParseInt(s, 10, 64). -/
def parseInt64 (s : String) : Option Int := parseInt64Chars s.data

theorem digitsRev_lt (fuel n : Nat) : ∀ d ∈ digitsRev fuel n, d < 10 := by
  induction fuel generalizing n with
  | zero => simp [digitsRev]
  | succ fuel ih =>
    intro d hd
    unfold digitsRev at hd
    by_cases hn : n = 0
    · simp [hn] at hd
    · simp [hn] at hd
      rcases hd with hd | hd
      · omega
      · exact ih _ _ hd

theorem ofDigits_digitsRev (fuel n : Nat) (h : n ≤ fuel) :
    Nat.ofDigits 10 (digitsRev fuel n) = n := by
  induction fuel generalizing n with
  | zero =>
    have : n = 0 := by omega
    simp [this, digitsRev]
  | succ fuel ih =>
    unfold digitsRev
    by_cases hn : n = 0
    · simp [hn]
    · have hdiv : n / 10 ≤ fuel := by
        have : n / 10 < n := Nat.div_lt_self (by omega) (by norm_num)
        omega
      simp only [hn, if_false, Nat.ofDigits_cons, ih _ hdiv]
      omega

theorem digitsRev_ne_nil (fuel n : Nat) (hf : 0 < fuel) (hn : 0 < n) :
    digitsRev fuel n ≠ [] := by
  cases fuel with
  | zero => omega
  | succ fuel => simp [digitsRev]; omega

theorem toNat_digitChar10 {d : Nat} (h : d < 10) : (digitChar10 d).toNat = 48 + d := by
  interval_cases d <;> decide

theorem parseDecDigits_natDecChars (m : Nat) : parseDecDigits (natDecChars m) = some m := by
  by_cases hm : m = 0
  · subst hm; decide
  · unfold natDecChars
    simp only [hm, if_false]
    have hlt := digitsRev_lt m m
    have hne : (digitsRev m m).reverse.map digitChar10 ≠ [] := by
      simp [digitsRev_ne_nil m m (by omega) (by omega)]
    have hall : ((digitsRev m m).reverse.map digitChar10).all isDigitChar = true := by
      rw [List.all_eq_true]
      intro c hc
      rw [List.mem_map] at hc
      obtain ⟨d, hd, rfl⟩ := hc
      rw [List.mem_reverse] at hd
      have := hlt d hd
      simp [isDigitChar, toNat_digitChar10 this]
      omega
    unfold parseDecDigits
    rw [if_pos ⟨hne, hall⟩]
    congr 1
    unfold decValue
    have hmap : ((digitsRev m m).reverse.map digitChar10).map (fun c => c.toNat - 48)
        = (digitsRev m m).reverse := by
      rw [List.map_map]
      have : ∀ d ∈ (digitsRev m m).reverse, ((fun c => c.toNat - 48) ∘ digitChar10) d = d := by
        intro d hd
        rw [List.mem_reverse] at hd
        have := hlt d hd
        simp [Function.comp, toNat_digitChar10 this]
      calc (digitsRev m m).reverse.map ((fun c => c.toNat - 48) ∘ digitChar10)
          = (digitsRev m m).reverse.map id := List.map_congr_left this
        _ = (digitsRev m m).reverse := List.map_id _
    rw [hmap, List.reverse_reverse, ofDigits_digitsRev m m (le_refl m)]

theorem isDigitChar_ne_sign {c : Char} (h : isDigitChar c = true) : c ≠ '-' ∧ c ≠ '+' :=
  ⟨fun hc => absurd (hc ▸ h) (by decide), fun hc => absurd (hc ▸ h) (by decide)⟩

theorem parseInt64_sprintfD {n : Int} (h : in64 n) : parseInt64 (sprintfD n) = some n := by
  obtain ⟨h1, h2⟩ := h
  unfold parseInt64 sprintfD
  by_cases hneg : n < 0
  · simp only [hneg, if_true]
    have habs : (n.natAbs : Int) = -n := by
      rcases Int.natAbs_eq n with he | he <;> omega
    have hrange : (n.natAbs : Int) ≤ 2 ^ 63 := by omega
    have hred : parseInt64Chars ('-' :: natDecChars n.natAbs)
        = (parseDecDigits (natDecChars n.natAbs)).bind
            (fun m => if (m : Int) ≤ 2 ^ 63 then some (-(m : Int)) else none) := rfl
    show parseInt64Chars ('-' :: natDecChars n.natAbs) = some n
    rw [hred, parseDecDigits_natDecChars, Option.some_bind, if_pos hrange]
    congr 1
    omega
  · simp only [hneg, if_false]
    have habs : (n.natAbs : Int) = n := by
      rcases Int.natAbs_eq n with he | he <;> omega
    show parseInt64Chars (natDecChars n.natAbs) = some n
    by_cases hz : n.natAbs = 0
    · rw [hz]
      have : n = 0 := by omega
      subst this
      decide
    · have hnd : natDecChars n.natAbs = (digitsRev n.natAbs n.natAbs).reverse.map digitChar10 := by
        unfold natDecChars
        rw [if_neg hz]
      obtain ⟨c, cs, hcons⟩ :=
        List.exists_cons_of_ne_nil (l := natDecChars n.natAbs)
          (by rw [hnd]; simp [digitsRev_ne_nil n.natAbs n.natAbs (by omega) (by omega)])
      have hcdig : isDigitChar c = true := by
        have hcmem : c ∈ (digitsRev n.natAbs n.natAbs).reverse.map digitChar10 := by
          rw [← hnd, hcons]; exact List.mem_cons_self _ _
        rw [List.mem_map] at hcmem
        obtain ⟨d, hd, rfl⟩ := hcmem
        rw [List.mem_reverse] at hd
        have := digitsRev_lt n.natAbs n.natAbs d hd
        simp only [isDigitChar, toNat_digitChar10 this, Bool.and_eq_true, decide_eq_true_eq]
        omega
      obtain ⟨hne1, hne2⟩ := isDigitChar_ne_sign hcdig
      have hrange : (n.natAbs : Int) < 2 ^ 63 := by omega
      rw [hcons]
      show (if c = '-' then
          (parseDecDigits cs).bind
            (fun m => if (m : Int) ≤ 2 ^ 63 then some (-(m : Int)) else none)
        else if c = '+' then
          (parseDecDigits cs).bind (fun m => if (m : Int) < 2 ^ 63 then some (m : Int) else none)
        else
          (parseDecDigits (c :: cs)).bind
            (fun m => if (m : Int) < 2 ^ 63 then some (m : Int) else none)) = some n
      rw [if_neg hne1, if_neg hne2, ← hcons, parseDecDigits_natDecChars, Option.some_bind,
        if_pos hrange]
      congr 1

theorem wrap64_eq_of_abs_lt {x : Int} (h : |x| < 2 ^ 63) : wrap64 x = x := by
  rcases abs_lt.mp h with ⟨ha, hb⟩
  exact wrap64_eq_of_in64 ⟨by omega, hb⟩

theorem goDurationNs_eq (interval : String) (C N : Int)
    (hov : |C * N| * (durationOf interval * 10 ^ 9) < 2 ^ 63) :
    goDurationNs interval C N = C * N * durationOf interval * 10 ^ 9 := by
  have hx : 0 ≤ |C * N| := abs_nonneg _
  by_cases h1 : interval = "day"
  · subst h1
    have hdur : durationOf "day" = 86400 := rfl
    rw [hdur] at hov ⊢
    norm_num at hov
    have hA : |C * N| < 2 ^ 63 := by linarith
    have h24 : |C * N * 24| < 2 ^ 63 := by
      rw [abs_mul]
      norm_num
      linarith
    have hfull : |C * N * 24 * 3600000000000| < 2 ^ 63 := by
      rw [abs_mul, abs_mul]
      norm_num
      linarith
    have hgo : goDurationNs "day" C N
        = wrap64 (wrap64 (wrap64 (C * N) * 24) * 3600000000000) := rfl
    rw [hgo, wrap64_eq_of_abs_lt hA, wrap64_eq_of_abs_lt h24, wrap64_eq_of_abs_lt hfull]
    ring
  · by_cases h2 : interval = "week"
    · subst h2
      have hdur : durationOf "week" = 604800 := rfl
      rw [hdur] at hov ⊢
      norm_num at hov
      have hA : |C * N| < 2 ^ 63 := by linarith
      have h7 : |C * N * 7| < 2 ^ 63 := by
        rw [abs_mul]
        norm_num
        linarith
      have h24 : |C * N * 7 * 24| < 2 ^ 63 := by
        rw [abs_mul, abs_mul]
        norm_num
        linarith
      have hfull : |C * N * 7 * 24 * 3600000000000| < 2 ^ 63 := by
        rw [abs_mul, abs_mul, abs_mul]
        norm_num
        linarith
      have hgo : goDurationNs "week" C N
          = wrap64 (wrap64 (wrap64 (wrap64 (C * N) * 7) * 24) * 3600000000000) := rfl
      rw [hgo, wrap64_eq_of_abs_lt hA, wrap64_eq_of_abs_lt h7, wrap64_eq_of_abs_lt h24,
        wrap64_eq_of_abs_lt hfull]
      ring
    · by_cases h3 : interval = "month"
      · subst h3
        have hdur : durationOf "month" = 2592000 := rfl
        rw [hdur] at hov ⊢
        norm_num at hov
        have hA : |C * N| < 2 ^ 63 := by linarith
        have h30 : |C * N * 30| < 2 ^ 63 := by
          rw [abs_mul]
          norm_num
          linarith
        have h24 : |C * N * 30 * 24| < 2 ^ 63 := by
          rw [abs_mul, abs_mul]
          norm_num
          linarith
        have hfull : |C * N * 30 * 24 * 3600000000000| < 2 ^ 63 := by
          rw [abs_mul, abs_mul, abs_mul]
          norm_num
          linarith
        have hgo : goDurationNs "month" C N
            = wrap64 (wrap64 (wrap64 (wrap64 (C * N) * 30) * 24) * 3600000000000) := rfl
        rw [hgo, wrap64_eq_of_abs_lt hA, wrap64_eq_of_abs_lt h30, wrap64_eq_of_abs_lt h24,
          wrap64_eq_of_abs_lt hfull]
        ring
      · by_cases h4 : interval = "year"
        · subst h4
          have hdur : durationOf "year" = 31536000 := rfl
          rw [hdur] at hov ⊢
          norm_num at hov
          have hA : |C * N| < 2 ^ 63 := by linarith
          have h365 : |C * N * 365| < 2 ^ 63 := by
            rw [abs_mul]
            norm_num
            linarith
          have h24 : |C * N * 365 * 24| < 2 ^ 63 := by
            rw [abs_mul, abs_mul]
            norm_num
            linarith
          have hfull : |C * N * 365 * 24 * 3600000000000| < 2 ^ 63 := by
            rw [abs_mul, abs_mul, abs_mul]
            norm_num
            linarith
          have hgo : goDurationNs "year" C N
              = wrap64 (wrap64 (wrap64 (wrap64 (C * N) * 365) * 24) * 3600000000000) := rfl
          rw [hgo, wrap64_eq_of_abs_lt hA, wrap64_eq_of_abs_lt h365, wrap64_eq_of_abs_lt h24,
            wrap64_eq_of_abs_lt hfull]
          ring
        · have hdur : durationOf interval = 2592000 := by
            unfold durationOf
            rw [if_neg h1, if_neg h2, if_neg h3, if_neg h4]
          rw [hdur] at hov ⊢
          norm_num at hov
          have hA : |C * N| < 2 ^ 63 := by linarith
          have h30 : |C * N * 30| < 2 ^ 63 := by
            rw [abs_mul]
            norm_num
            linarith
          have h24 : |C * N * 30 * 24| < 2 ^ 63 := by
            rw [abs_mul, abs_mul]
            norm_num
            linarith
          have hfull : |C * N * 30 * 24 * 3600000000000| < 2 ^ 63 := by
            rw [abs_mul, abs_mul, abs_mul]
            norm_num
            linarith
          have hgo : goDurationNs interval C N
              = wrap64 (wrap64 (wrap64 (wrap64 (C * N) * 30) * 24) * 3600000000000) := by
            simp only [goDurationNs]
            rw [if_neg h1, if_neg h2, if_neg h3, if_neg h4]
          rw [hgo, wrap64_eq_of_abs_lt hA, wrap64_eq_of_abs_lt h30, wrap64_eq_of_abs_lt h24,
            wrap64_eq_of_abs_lt hfull]
          ring

theorem calcEnd_eq (interval : String) (C N nowSec nowNsec : Int) (hN : 0 < N)
    (hns0 : 0 ≤ nowNsec) (hns1 : nowNsec < 10 ^ 9)
    (hov : |C * N| * (durationOf interval * 10 ^ 9) < 2 ^ 63)
    (hres : in64 (nowSec + C * N * durationOf interval)) :
    calculateEndTimestamp interval C N nowSec nowNsec = nowSec + C * N * durationOf interval := by
  unfold calculateEndTimestamp
  rw [if_neg (by omega), goDurationNs_eq interval C N hov]
  have hd : Int.fdiv (nowNsec + C * N * durationOf interval * 10 ^ 9) (10 ^ 9)
      = C * N * durationOf interval := by
    rw [Int.fdiv_eq_ediv _ (by norm_num)]
    have hsplit : nowNsec + C * N * durationOf interval * 10 ^ 9
        = nowNsec + C * N * durationOf interval * 10 ^ 9 := rfl
    rw [Int.add_mul_ediv_right _ _ (by norm_num : (10 : Int) ^ 9 ≠ 0),
      Int.ediv_eq_zero_of_lt hns0 hns1]
    ring
  rw [hd]
  exact wrap64_eq_of_in64 hres

/-- Nonnegative IEEE 754 binary64 (float64) value modelled exactly as a
    mantissa-exponent pair (m, e) denoting the real number m * 2^(e-52); the
    mantissa of a rounded value has 53 significant bits.  The validated
    request paths only ever build prices for positive amounts, so the
    nonnegative fragment of float64 suffices. -/
abbrev F64 : Type := Nat × Int

/-- Fueled bit length of a natural number (fuel ≥ n suffices). -/
def bitLen (fuel n : Nat) : Nat :=
  match fuel with
  | 0 => 0
  | fuel + 1 => if n = 0 then 0 else bitLen fuel (n / 2) + 1

/-- Rounding of the fraction num/den (den positive) to the nearest natural
    number, ties going to the even one. -/
def roundNatHalfEven (num den : Nat) : Nat :=
  let q := num / den
  let r := num % den
  if 2 * r < den then q
  else if den < 2 * r then q + 1
  else if q % 2 = 0 then q else q + 1

/-- Floor of the base-2 logarithm of the fraction num/den, for positive
    num and den. -/
def floorLog2Frac (num den : Nat) : Int :=
  let e0 : Int := (bitLen num num : Int) - (bitLen den den : Int)
  if num * 2 ^ (-e0).toNat < den * 2 ^ e0.toNat then e0 - 1 else e0

/-- Nearest binary64 value to the exact fraction num/den: round to nearest
    with ties to even at 53 significand bits, the IEEE 754 rounding that both
    strconv.ParseFloat and every float64 arithmetic operation apply.  Faithful
    on the binary64 normal range, which contains every value the claims
    evaluate. -/
def f64FromFrac (num den : Nat) : F64 :=
  if num = 0 then (0, 0)
  else
    let e := floorLog2Frac num den
    if 0 ≤ 52 - e then (roundNatHalfEven (num * 2 ^ (52 - e).toNat) den, e)
    else (roundNatHalfEven num (den * 2 ^ (e - 52).toNat), e)

/-- Go float64 multiplication data.Amount * 100: the exact product, re-rounded
    to the nearest binary64 value. -/
def f64Mul100 (f : F64) : F64 :=
  if f.1 = 0 then (0, 0)
  else if 52 ≤ f.2 then f64FromFrac (f.1 * 100 * 2 ^ (f.2 - 52).toNat) 1
  else f64FromFrac (f.1 * 100) (2 ^ (52 - f.2).toNat)

/-- Go conversion int64(x) of a nonnegative float64 value: truncation toward
    zero, which on nonnegative values is the floor. -/
def goInt64OfF64 (f : F64) : Int :=
  if 52 ≤ f.2 then ((f.1 * 2 ^ (f.2 - 52).toNat : Nat) : Int)
  else ((f.1 / 2 ^ (52 - f.2).toNat : Nat) : Int)

/-- Minor-unit amount as buildPriceParams computes it, the Go expression
    int64(data.Amount * 100): a float64 multiplication by 100 followed by
    conversion to int64 (truncation). -/
def amountCents (amount : F64) : Int := goInt64OfF64 (f64Mul100 amount)

/-- Shallow embedding of models.PaymentLinkData.  The amount field holds the
    Go float64 amount, modelled exactly. -/
structure PaymentLinkData where
  amount : F64
  serviceName : String
  referenceNumber : String
  isSubscription : Bool
  interval : String
  intervalCount : Int
  endDateCycles : Int

/-- Recurring block of a Stripe price. -/
structure PriceRecurring where
  interval : String
  intervalCount : Int
deriving DecidableEq

/-- Stripe price parameters as buildPriceParams assembles them. -/
structure PriceParams where
  currency : String
  unitAmount : Int
  product : String
  recurring : Option PriceRecurring
deriving DecidableEq

/-- Shallow embedding of buildPriceParams (payment/stripe_generator.go). -/
def buildPriceParams (data : PaymentLinkData) (productID : String) : PriceParams :=
  { currency := "usd"
    unitAmount := amountCents data.amount
    product := productID
    recurring :=
      if data.isSubscription then
        some { interval := if data.interval = "" then "month" else data.interval
               intervalCount := if data.intervalCount ≤ 0 then 1 else data.intervalCount }
      else none }

/-- Metadata mapping attached by buildPaymentLinkParams for a subscription,
    modelled as the key/value list in insertion order (all six keys are
    distinct, so lookup matches the Go map exactly). -/
def builderMetadata (data : PaymentLinkData) (nowSec nowNsec : Int) : List (String × String) :=
  let base := [("service_name", data.serviceName), ("reference_number", data.referenceNumber)]
  if 0 < data.endDateCycles then
    base ++ [("end_date_cycles", sprintfD data.endDateCycles),
      ("end_timestamp", sprintfD (calculateEndTimestamp data.interval data.intervalCount
        data.endDateCycles nowSec nowNsec)),
      ("interval", data.interval),
      ("interval_count", sprintfD data.intervalCount)]
  else base

/-- Stripe payment-link parameters as buildPaymentLinkParams assembles them:
    one line item, and either the one-time-payment fields or the
    subscription-data metadata block. -/
structure PaymentLinkParams where
  priceID : String
  quantity : Int
  customerCreation : Option String
  setupFutureUsage : Option String
  subscriptionData : Option (List (String × String))
deriving DecidableEq

/-- Shallow embedding of buildPaymentLinkParams (payment/stripe_generator.go). -/
def buildPaymentLinkParams (data : PaymentLinkData) (priceID : String)
    (nowSec nowNsec : Int) : PaymentLinkParams :=
  if data.isSubscription then
    { priceID := priceID
      quantity := 1
      customerCreation := none
      setupFutureUsage := none
      subscriptionData := some (builderMetadata data nowSec nowNsec) }
  else
    { priceID := priceID
      quantity := 1
      customerCreation := some "always"
      setupFutureUsage := some "off_session"
      subscriptionData := none }

/-- Go map lookup in a metadata string map. -/
def lookupMeta (md : List (String × String)) (k : String) : Option String :=
  (md.find? (fun p => p.1 == k)).map (fun p => p.2)

/-- Outcome of one handleSubscriptionCreated invocation: skip (no cycle-limit
    metadata, the subscription runs indefinitely), dropCorrupt (an error is
    logged and the event dropped, no provider call), or schedule (the
    cancellation-scheduling provider call with subscription id and cancel-at
    timestamp). -/
inductive EnforcerDecision where
  | skip : EnforcerDecision
  | dropCorrupt : EnforcerDecision
  | schedule : String → Int → EnforcerDecision
deriving DecidableEq

/-- Shallow embedding of the decision logic of handleSubscriptionCreated (the
    Stripe webhook handler): look up end_date_cycles; if present, require
    end_timestamp, parse both as int64, and schedule cancellation at the
    parsed end timestamp. -/
def handleSubscriptionCreated (subID : String)
    (metadata : List (String × String)) : EnforcerDecision :=
  match lookupMeta metadata "end_date_cycles" with
  | none => EnforcerDecision.skip
  | some endCyclesStr =>
    match lookupMeta metadata "end_timestamp" with
    | none => EnforcerDecision.dropCorrupt
    | some endTimestampStr =>
      match parseInt64 endCyclesStr with
      | none => EnforcerDecision.dropCorrupt
      | some _ =>
        match parseInt64 endTimestampStr with
        | none => EnforcerDecision.dropCorrupt
        | some endTimestamp => EnforcerDecision.schedule subID endTimestamp

/-- Provider call issued by the Enforcer for a notification, if any. -/
def enforcerCall (subID : String) (metadata : List (String × String)) :
    Option (String × Int) :=
  match handleSubscriptionCreated subID metadata with
  | EnforcerDecision.schedule id ts => some (id, ts)
  | _ => none

/-- Modelled from the spec: the provider-side subscription state this system
    can observe, per subscription identifier the pair (cancel-at timestamp,
    cancel-at-period-end flag).  The provider itself is an external
    collaborator, not code of this repository. -/
def ProviderState : Type := String → Option Int × Bool

/-- Modelled from the spec: effect of scheduleSubscriptionCancellation, the
    provider call subscription.Update(subscriptionID, {CancelAt: ts,
    CancelAtPeriodEnd: true}); the spec states the call is idempotent —
    re-issuing the same cutoff is a no-op. -/
def scheduleSubscriptionCancellation (st : ProviderState) (subscriptionID : String)
    (cancelAtTimestamp : Int) : ProviderState :=
  fun id => if id = subscriptionID then (some cancelAtTimestamp, true) else st id

/-- One full Enforcer invocation on a notification: the provider state after
    it and the provider call it issued. -/
def enforcerRun (st : ProviderState) (subID : String)
    (metadata : List (String × String)) : ProviderState × Option (String × Int) :=
  match handleSubscriptionCreated subID metadata with
  | EnforcerDecision.schedule id ts =>
    (scheduleSubscriptionCancellation st id ts, some (id, ts))
  | _ => (st, none)

/-- Shallow embedding of HandleWebhook (the Stripe webhook endpoint).  readOk
    models success of reading the request body, sigOk the signature
    verification outcome, parsed the result of JSON-unmarshalling the
    subscription from the event payload (none = malformed payload), and
    schedSucceeds the outcome of the outbound provider call.  Returns the
    HTTP status written and the provider state afterwards. -/
def handleWebhook (readOk sigOk : Bool) (eventType : String)
    (parsed : Option (String × List (String × String))) (st : ProviderState)
    (schedSucceeds : Bool) : Nat × ProviderState :=
  if readOk = false then (503, st)
  else if sigOk = false then (400, st)
  else
    let st2 :=
      if eventType = "customer.subscription.created" then
        match parsed with
        | none => st
        | some (subID, metadata) =>
          match handleSubscriptionCreated subID metadata with
          | EnforcerDecision.schedule id ts =>
            if schedSucceeds then scheduleSubscriptionCancellation st id ts else st
          | _ => st
      else st
    (200, st2)

/-- Shallow embedding of IsValidInterval (utils/command_parser.go): membership
    in the valid-interval map {month, week, year}. -/
def IsValidInterval (interval : String) : Bool :=
  interval == "month" || interval == "week" || interval == "year"

/-- Values of the Billing Interval select options built by the payment modal
    (services/slack_ui_builder.go): month, week, year. -/
def intervalSelectValues : List String := ["month", "week", "year"]

theorem in64_calculateEndTimestamp (interval : String) (C N nowSec nowNsec : Int) :
    in64 (calculateEndTimestamp interval C N nowSec nowNsec) := by
  unfold calculateEndTimestamp
  split
  · decide
  · exact in64_wrap64 _

theorem durationOf_pos (interval : String) : 0 < durationOf interval := by
  unfold durationOf
  split_ifs <;> norm_num

theorem builderMetadata_pos (data : PaymentLinkData) (nowSec nowNsec : Int)
    (hN : 0 < data.endDateCycles) :
    builderMetadata data nowSec nowNsec
      = [("service_name", data.serviceName), ("reference_number", data.referenceNumber),
         ("end_date_cycles", sprintfD data.endDateCycles),
         ("end_timestamp", sprintfD (calculateEndTimestamp data.interval data.intervalCount
            data.endDateCycles nowSec nowNsec)),
         ("interval", data.interval),
         ("interval_count", sprintfD data.intervalCount)] := by
  simp only [builderMetadata]
  rw [if_pos hN]
  rfl

theorem builderMetadata_nonpos (data : PaymentLinkData) (nowSec nowNsec : Int)
    (hN : ¬ 0 < data.endDateCycles) :
    builderMetadata data nowSec nowNsec
      = [("service_name", data.serviceName), ("reference_number", data.referenceNumber)] := by
  simp only [builderMetadata]
  rw [if_neg hN]

/-- C1 (amended): for every request with end-cycles N > 0, interval I and
    interval-count C, PROVIDED the total duration in nanoseconds C*N*durationOf(I)*10^9
    stays below 2^63 (no int64 overflow) and the resulting timestamp fits in
    int64, the cutoff computed by the Builder at creation time T equals
    T + N*C*durationOf(I) with durationOf(day)=86400s, week=604800s,
    month=2592000s, year=31536000s and any other interval falling back to the
    month duration.  Without the no-overflow bound the equation fails (see the
    counterexample). -/
theorem C1_cutoff_formula (interval : String) (C N nowSec nowNsec : Int)
    (hN : 0 < N) (hns0 : 0 ≤ nowNsec) (hns1 : nowNsec < 10 ^ 9)
    (hov : |C * N| * (durationOf interval * 10 ^ 9) < 2 ^ 63)
    (hres : in64 (nowSec + C * N * durationOf interval)) :
    calculateEndTimestamp interval C N nowSec nowNsec
      = nowSec + N * C * durationOf interval := by
  rw [calcEnd_eq interval C N nowSec nowNsec hN hns0 hns1 hov hres]
  ring

/-- C1 witness: a request for 12 monthly cycles created at Unix time
    1700000000 gets the cutoff 1700000000 + 12*1*2592000. -/
theorem C1_witness :
    calculateEndTimestamp "month" 1 12 1700000000 0
      = 1700000000 + 12 * 1 * durationOf "month" :=
  C1_cutoff_formula "month" 1 12 1700000000 0 (by decide) (by decide) (by decide)
    (by decide) (by decide)

/-- C1 counterexample: at interval month, interval-count 1 and end-cycles
    3559 (accepted by request validation, which only requires a positive
    count), the int64 nanosecond arithmetic overflows and the computed cutoff
    is negative instead of creation time plus 3559 months. -/
theorem C1_overflow_counterexample :
    calculateEndTimestamp "month" 1 3559 0 0 = -9221816074
    ∧ calculateEndTimestamp "month" 1 3559 0 0 ≠ 0 + 3559 * 1 * durationOf "month" := by
  constructor
  · decide
  · decide

/-- C2: the metadata the Builder encodes for a request with end-cycles N > 0
    is decoded by the Enforcer without loss: parsing end_date_cycles returns
    exactly N, parsing end_timestamp returns exactly the computed cutoff, and
    interval and interval_count read back as encoded. -/
theorem C2_metadata_roundtrip (data : PaymentLinkData) (nowSec nowNsec : Int)
    (hN : 0 < data.endDateCycles) (hN64 : in64 data.endDateCycles)
    (hC64 : in64 data.intervalCount) :
    ((lookupMeta (builderMetadata data nowSec nowNsec) "end_date_cycles").bind parseInt64
        = some data.endDateCycles)
    ∧ ((lookupMeta (builderMetadata data nowSec nowNsec) "end_timestamp").bind parseInt64
        = some (calculateEndTimestamp data.interval data.intervalCount data.endDateCycles
            nowSec nowNsec))
    ∧ lookupMeta (builderMetadata data nowSec nowNsec) "interval" = some data.interval
    ∧ lookupMeta (builderMetadata data nowSec nowNsec) "interval_count"
        = some (sprintfD data.intervalCount)
    ∧ ((lookupMeta (builderMetadata data nowSec nowNsec) "interval_count").bind parseInt64
        = some data.intervalCount) := by
  rw [builderMetadata_pos data nowSec nowNsec hN]
  refine ⟨?_, ?_, rfl, rfl, ?_⟩
  · show (some (sprintfD data.endDateCycles)).bind parseInt64 = some data.endDateCycles
    rw [Option.some_bind]
    exact parseInt64_sprintfD hN64
  · show (some (sprintfD (calculateEndTimestamp data.interval data.intervalCount
        data.endDateCycles nowSec nowNsec))).bind parseInt64
      = some (calculateEndTimestamp data.interval data.intervalCount data.endDateCycles
          nowSec nowNsec)
    rw [Option.some_bind]
    exact parseInt64_sprintfD (in64_calculateEndTimestamp _ _ _ _ _)
  · show (some (sprintfD data.intervalCount)).bind parseInt64 = some data.intervalCount
    rw [Option.some_bind]
    exact parseInt64_sprintfD hC64

/-- Concrete subscription request used by witnesses: 29.99 USD, 12 monthly
    cycles. -/
def sampleSubRequest : PaymentLinkData :=
  { amount := f64FromFrac 2999 100
    serviceName := "Premium"
    referenceNumber := "REF-1"
    isSubscription := true
    interval := "month"
    intervalCount := 1
    endDateCycles := 12 }

/-- C2 witness: the roundtrip at a concrete request, 12 monthly cycles
    created at Unix time 1700000000. -/
theorem C2_witness :
    ((lookupMeta (builderMetadata sampleSubRequest 1700000000 0) "end_date_cycles").bind
        parseInt64 = some 12)
    ∧ ((lookupMeta (builderMetadata sampleSubRequest 1700000000 0) "end_timestamp").bind
        parseInt64 = some (calculateEndTimestamp "month" 1 12 1700000000 0))
    ∧ lookupMeta (builderMetadata sampleSubRequest 1700000000 0) "interval" = some "month"
    ∧ lookupMeta (builderMetadata sampleSubRequest 1700000000 0) "interval_count"
        = some (sprintfD 1)
    ∧ ((lookupMeta (builderMetadata sampleSubRequest 1700000000 0) "interval_count").bind
        parseInt64 = some 1) :=
  C2_metadata_roundtrip sampleSubRequest 1700000000 0 (by decide) (by decide) (by decide)

/-- C3: for every notification whose metadata has the end_date_cycles key but
    lacks end_timestamp, or whose end_date_cycles or end_timestamp value does
    not parse as an integer, handleSubscriptionCreated logs an error and drops
    the event (dropCorrupt) and issues zero provider calls — in particular no
    cancellation-scheduling call, and no cutoff is guessed. -/
theorem C3_corrupt_metadata_drops (subID : String) (metadata : List (String × String))
    (cyc : String) (hcyc : lookupMeta metadata "end_date_cycles" = some cyc)
    (hbad : lookupMeta metadata "end_timestamp" = none ∨ parseInt64 cyc = none
      ∨ ∃ ts, lookupMeta metadata "end_timestamp" = some ts ∧ parseInt64 ts = none) :
    handleSubscriptionCreated subID metadata = EnforcerDecision.dropCorrupt
    ∧ enforcerCall subID metadata = none := by
  have hdec : handleSubscriptionCreated subID metadata = EnforcerDecision.dropCorrupt := by
    rcases hbad with h | h | ⟨ts, hts, hpt⟩
    · simp only [handleSubscriptionCreated, hcyc, h]
    · rcases hts2 : lookupMeta metadata "end_timestamp" with _ | ts
      · simp only [handleSubscriptionCreated, hcyc, hts2]
      · simp only [handleSubscriptionCreated, hcyc, hts2, h]
    · rcases hp : parseInt64 cyc with _ | v
      · simp only [handleSubscriptionCreated, hcyc, hts, hp]
      · simp only [handleSubscriptionCreated, hcyc, hts, hp, hpt]
  refine ⟨hdec, ?_⟩
  unfold enforcerCall
  rw [hdec]

/-- C3 witness: metadata carrying only end_date_cycles = 3 (the fourth
    example scenario of the specification) is dropped with no provider
    call. -/
theorem C3_witness :
    handleSubscriptionCreated "sub_1" [("end_date_cycles", "3")] = EnforcerDecision.dropCorrupt
    ∧ enforcerCall "sub_1" [("end_date_cycles", "3")] = none :=
  C3_corrupt_metadata_drops "sub_1" [("end_date_cycles", "3")] "3" (by decide)
    (Or.inl (by decide))

/-- C4: the Enforcer is idempotent under duplicate webhook delivery — running
    it a second time on the same notification leaves the provider state
    exactly as after the first run (re-issuing the same cutoff is a no-op)
    and issues the identical provider call. -/
theorem C4_enforcer_idempotent (st : ProviderState) (subID : String)
    (metadata : List (String × String)) :
    (enforcerRun (enforcerRun st subID metadata).1 subID metadata).1
        = (enforcerRun st subID metadata).1
    ∧ (enforcerRun (enforcerRun st subID metadata).1 subID metadata).2
        = (enforcerRun st subID metadata).2 := by
  unfold enforcerRun
  cases h : handleSubscriptionCreated subID metadata with
  | skip => exact ⟨rfl, rfl⟩
  | dropCorrupt => exact ⟨rfl, rfl⟩
  | schedule id ts =>
    refine ⟨?_, rfl⟩
    show scheduleSubscriptionCancellation (scheduleSubscriptionCancellation st id ts) id ts
        = scheduleSubscriptionCancellation st id ts
    funext x
    unfold scheduleSubscriptionCancellation
    by_cases hx : x = id
    · rw [if_pos hx, if_pos hx]
    · rw [if_neg hx, if_neg hx]

/-- C5 (amended): in every metadata mapping the Builder produces for a
    request with end-cycles > 0 and interval-count ≥ 1, the end_date_cycles
    key is accompanied by an end_timestamp key whose parsed value is strictly
    greater than the creation time — PROVIDED the duration arithmetic does not
    overflow int64; with overflow the parsed cutoff can precede creation time
    (see the counterexample). -/
theorem C5_cutoff_after_creation (data : PaymentLinkData) (nowSec nowNsec : Int)
    (hN : 0 < data.endDateCycles) (hC : 1 ≤ data.intervalCount)
    (hns0 : 0 ≤ nowNsec) (hns1 : nowNsec < 10 ^ 9)
    (hov : |data.intervalCount * data.endDateCycles| * (durationOf data.interval * 10 ^ 9)
      < 2 ^ 63)
    (hres : in64 (nowSec + data.intervalCount * data.endDateCycles
      * durationOf data.interval)) :
    (lookupMeta (builderMetadata data nowSec nowNsec) "end_date_cycles").isSome = true
    ∧ ∃ t, (lookupMeta (builderMetadata data nowSec nowNsec) "end_timestamp").bind parseInt64
        = some t ∧ nowSec < t := by
  rw [builderMetadata_pos data nowSec nowNsec hN]
  refine ⟨rfl, calculateEndTimestamp data.interval data.intervalCount data.endDateCycles
    nowSec nowNsec, ?_, ?_⟩
  · show (some (sprintfD (calculateEndTimestamp data.interval data.intervalCount
        data.endDateCycles nowSec nowNsec))).bind parseInt64
      = some (calculateEndTimestamp data.interval data.intervalCount data.endDateCycles
          nowSec nowNsec)
    rw [Option.some_bind]
    exact parseInt64_sprintfD (in64_calculateEndTimestamp _ _ _ _ _)
  · rw [calcEnd_eq data.interval data.intervalCount data.endDateCycles nowSec nowNsec hN
      hns0 hns1 hov hres]
    have hdur : 0 < durationOf data.interval := durationOf_pos data.interval
    have hp : 0 < data.intervalCount * data.endDateCycles := mul_pos (by omega) hN
    have := mul_pos hp hdur
    linarith

/-- C5 witness: the concrete request of C2 satisfies the invariant, with the
    cutoff 1731104000 strictly after the creation time 1700000000. -/
theorem C5_witness :
    (lookupMeta (builderMetadata sampleSubRequest 1700000000 0) "end_date_cycles").isSome = true
    ∧ ∃ t, (lookupMeta (builderMetadata sampleSubRequest 1700000000 0) "end_timestamp").bind
        parseInt64 = some t ∧ (1700000000 : Int) < t :=
  C5_cutoff_after_creation sampleSubRequest 1700000000 0 (by decide) (by decide) (by decide)
    (by decide) (by decide) (by decide)

/-- Concrete subscription request whose duration arithmetic overflows int64:
    weekly interval, interval-count 1, end-cycles 15251 (a value request
    validation accepts, since it only requires a positive integer). -/
def overflowSubRequest : PaymentLinkData :=
  { amount := f64FromFrac 999 100
    serviceName := "S"
    referenceNumber := "R"
    isSubscription := true
    interval := "week"
    intervalCount := 1
    endDateCycles := 15251 }

/-- C5 counterexample: for the overflowing request created at Unix time
    1700000000 the Builder writes end_date_cycles together with an
    end_timestamp that parses to -7522939274, which is NOT greater than the
    creation time — the claim as stated fails on this input. -/
theorem C5_overflow_counterexample :
    (lookupMeta (builderMetadata overflowSubRequest 1700000000 0) "end_date_cycles").isSome
        = true
    ∧ ((lookupMeta (builderMetadata overflowSubRequest 1700000000 0) "end_timestamp").bind
        parseInt64 = some (-7522939274))
    ∧ ¬ ((1700000000 : Int) < -7522939274) := by
  refine ⟨by decide, by decide, by decide⟩

/-- C6: for every valid one-time request (is-subscription false) the created
    price carries no recurring parameters and no subscription metadata is
    attached at all; and for every subscription request with end-cycles zero
    the attached metadata contains neither end_date_cycles nor
    end_timestamp. -/
theorem C6_no_cycle_metadata (data : PaymentLinkData) (productID priceID : String)
    (nowSec nowNsec : Int) :
    (data.isSubscription = false →
      (buildPriceParams data productID).recurring = none
      ∧ (buildPaymentLinkParams data priceID nowSec nowNsec).subscriptionData = none)
    ∧ (data.isSubscription = true → data.endDateCycles = 0 →
      ∀ md, (buildPaymentLinkParams data priceID nowSec nowNsec).subscriptionData = some md →
        lookupMeta md "end_date_cycles" = none ∧ lookupMeta md "end_timestamp" = none) := by
  constructor
  · intro hsub
    constructor
    · simp [buildPriceParams, hsub]
    · simp [buildPaymentLinkParams, hsub]
  · intro hsub hzero md hmd
    have hmd2 : md = builderMetadata data nowSec nowNsec := by
      simp [buildPaymentLinkParams, hsub] at hmd
      exact hmd.symm
    subst hmd2
    rw [builderMetadata_nonpos data nowSec nowNsec (by omega)]
    exact ⟨rfl, rfl⟩

/-- Concrete one-time request used by the C6 witness. -/
def oneTimeRequest : PaymentLinkData :=
  { amount := f64FromFrac 1999 100
    serviceName := "Hosting"
    referenceNumber := "REF-3"
    isSubscription := false
    interval := "month"
    intervalCount := 1
    endDateCycles := 0 }

/-- Concrete unlimited subscription request (end-cycles zero) used by the C6
    witness. -/
def unlimitedSubRequest : PaymentLinkData :=
  { amount := f64FromFrac 999 100
    serviceName := "Basic"
    referenceNumber := "REF-5"
    isSubscription := true
    interval := "month"
    intervalCount := 1
    endDateCycles := 0 }

/-- C6 witness: a concrete one-time request gets no recurring block and no
    subscription metadata, and a concrete unlimited subscription request gets
    metadata without the cycle-limit keys. -/
theorem C6_witness :
    ((buildPriceParams oneTimeRequest "prod_1").recurring = none
      ∧ (buildPaymentLinkParams oneTimeRequest "price_1" 1700000000 0).subscriptionData = none)
    ∧ (lookupMeta (builderMetadata unlimitedSubRequest 1700000000 0) "end_date_cycles" = none
      ∧ lookupMeta (builderMetadata unlimitedSubRequest 1700000000 0) "end_timestamp" = none) :=
  ⟨(C6_no_cycle_metadata oneTimeRequest "prod_1" "price_1" 1700000000 0).1 rfl,
   (C6_no_cycle_metadata unlimitedSubRequest "prod_1" "price_1" 1700000000 0).2 rfl rfl
     (builderMetadata unlimitedSubRequest 1700000000 0) rfl⟩

/-- C7 (amended): request validation accepts exactly the interval values
    month, week and year — the same three values the modal's interval select
    offers — and rejects any other value, INCLUDING day, as a validation
    error before any provider call.  The claim as stated (day accepted) fails
    on the code: see the counterexample. -/
theorem C7_interval_validation (s : String) :
    IsValidInterval s = true ↔ s ∈ intervalSelectValues := by
  unfold IsValidInterval intervalSelectValues
  simp only [Bool.or_eq_true, beq_iff_eq, List.mem_cons, List.not_mem_nil, or_false]
  tauto

/-- C7 witness: the value week passes validation. -/
theorem C7_witness : IsValidInterval "week" = true :=
  (C7_interval_validation "week").mpr (by decide)

/-- C7 counterexample: the interval value day is rejected by IsValidInterval
    and is not among the modal's interval options, contradicting the claim
    that validation accepts day. -/
theorem C7_day_rejected :
    IsValidInterval "day" = false ∧ "day" ∉ intervalSelectValues := by
  refine ⟨by decide, by decide⟩

/-- C8: for every inbound event that passes signature verification (and whose
    body was read), the webhook endpoint responds HTTP 200 regardless of the
    event type, of whether the payload parsed, and of whether the outbound
    scheduling call succeeded — internal failures are logged and swallowed. -/
theorem C8_webhook_always_ack (eventType : String)
    (parsed : Option (String × List (String × String))) (st : ProviderState)
    (schedSucceeds : Bool) :
    (handleWebhook true true eventType parsed st schedSucceeds).1 = 200 := rfl

/-- Concrete one-time request for 29.99 USD used by the C9 counterexample. -/
def exactCentsRequest : PaymentLinkData :=
  { amount := f64FromFrac 2999 100
    serviceName := "Premium"
    referenceNumber := "REF-4"
    isSubscription := false
    interval := "month"
    intervalCount := 1
    endDateCycles := 0 }

/-- Concrete one-time request for 19.99 USD used by the C9 amended theorem. -/
def lossyCentsRequest : PaymentLinkData :=
  { amount := f64FromFrac 1999 100
    serviceName := "Premium"
    referenceNumber := "REF-6"
    isSubscription := false
    interval := "month"
    intervalCount := 1
    endDateCycles := 0 }

/-- C9 counterexample: for the amount 29.99 the float64 product 29.99*100 is
    EXACTLY 2999 (the nearest double to the true product rounds up to the
    integer), so the charged amount is 2999 cents, not one cent less as the
    claim's example asserts. -/
theorem C9_counterexample_2999 :
    (buildPriceParams exactCentsRequest "prod_9").unitAmount = 2999
    ∧ f64Mul100 (f64FromFrac 2999 100) = (6594870743400448, 11)
    ∧ (6594870743400448 : Nat) = 2999 * 2 ^ 41 := by
  refine ⟨by decide, by decide, by decide⟩

/-- C9 (amended): the currency-minor-unit conversion truncates toward zero
    rather than rounding, so for some positive decimal amounts — for example
    19.99, whose float64 value times 100 is slightly below 1999 — the charged
    minor-unit amount is one cent less than the exact decimal value. -/
theorem C9_truncation_lossy :
    (buildPriceParams lossyCentsRequest "prod_9").unitAmount = 1998
    ∧ (1998 : Int) < 1999 := by
  refine ⟨by decide, by decide⟩

/-- C10: the scheduled cancellation cutoff depends only on the
    end_date_cycles and end_timestamp metadata values: two notifications for
    the same subscription agreeing on those two keys produce identical
    scheduling calls, whatever their interval, interval_count or service_name
    values. -/
theorem C10_call_depends_only_on_timestamp (subID : String)
    (md1 md2 : List (String × String))
    (hcyc : lookupMeta md1 "end_date_cycles" = lookupMeta md2 "end_date_cycles")
    (hts : lookupMeta md1 "end_timestamp" = lookupMeta md2 "end_timestamp") :
    enforcerCall subID md1 = enforcerCall subID md2 := by
  unfold enforcerCall handleSubscriptionCreated
  rw [hcyc, hts]

/-- C10 witness: two concrete notifications for the same subscription with the
    same end_date_cycles and end_timestamp but different interval,
    interval_count and service_name values yield the same scheduling call. -/
theorem C10_witness :
    enforcerCall "sub_2" [("end_date_cycles", "6"), ("end_timestamp", "1700000000"),
        ("interval", "year"), ("interval_count", "1")]
      = enforcerCall "sub_2" [("end_date_cycles", "6"), ("end_timestamp", "1700000000"),
        ("interval", "month"), ("interval_count", "3"), ("service_name", "Premium")] :=
  C10_call_depends_only_on_timestamp "sub_2"
    [("end_date_cycles", "6"), ("end_timestamp", "1700000000"),
      ("interval", "year"), ("interval_count", "1")]
    [("end_date_cycles", "6"), ("end_timestamp", "1700000000"),
      ("interval", "month"), ("interval_count", "3"), ("service_name", "Premium")]
    (by decide) (by decide)
